import Mathlib

/-!
Verification of the fallback static-asset HTTP server in
src/simple_server.py: a request handler that rewrites the root path,
answers a fixed set of mock JSON bodies for /api/ paths, answers a fixed
JavaScript stub for /socket.io/ paths, delegates everything else to a
generic static file server, and injects three no-cache headers into
every response.  The server lifecycle (port selection from the command
line, bind-error reporting, clean shutdown on interrupt) is embedded as
pure functions over an abstract event describing what the operating
system did.
-/

namespace SimpleServer

/-- Contiguous-occurrence test on lists of characters: true when the
needle occurs as a contiguous run inside the haystack.  This is the
meaning of the Python expression needle in haystack on strings. -/
def listContainsSub (needle : List Char) : List Char → Bool
  | [] => needle.isEmpty
  | a :: as => needle.isPrefixOf (a :: as) || listContainsSub needle as

/-- Python substring containment sub in s. -/
def strContains (s sub : String) : Bool := listContainsSub sub.data s.data

/-- Python s.startswith(p). -/
def strStartsWith (s p : String) : Bool := p.data.isPrefixOf s.data

/-- An HTTP response as assembled by the handler: status line, the
headers in the order they are sent, and the body bytes (as a string). -/
structure Response where
  status : Nat
  headers : List (String × String)
  body : String
deriving DecidableEq, Repr

/-- What the delegated generic static-file server (the base class
SimpleHTTPRequestHandler) produces for a path before the overridden
end_headers runs: a status, the headers it sends itself, and a body.
The filesystem-dependent behaviour (index resolution, MIME typing,
404 handling) is abstracted as an arbitrary such value per path. -/
structure StaticContent where
  status : Nat
  headers : List (String × String)
  body : String
deriving DecidableEq, Repr

/-- The three cache-disabling headers sent by the overridden
end_headers, in the order the code sends them. -/
def noCacheHeaders : List (String × String) :=
  [("Cache-Control", "no-cache, no-store, must-revalidate"),
   ("Pragma", "no-cache"),
   ("Expires", "0")]

/-- The overridden end_headers: every header list already buffered by
send_header calls gets the three no-cache headers appended before the
header block is finalized (the override sends them, then calls the
base-class end_headers which flushes the buffer). -/
def end_headers (sent : List (String × String)) : List (String × String) :=
  sent ++ noCacheHeaders

/-- Mock body for paths containing /api/csv/sessions. -/
def sessionsBody : String := "\x7b\"success\": true, \"sessions\": []\x7d"

/-- Mock body for paths containing /api/hardware. -/
def hardwareBody : String :=
  "\x7b\"success\": true, \"hardware\": \x7b\"debuggers\": [], \"platforms\": []\x7d\x7d"

/-- Mock body for paths containing /api/machines. -/
def machinesBody : String := "\x7b\"success\": true, \"machines\": []\x7d"

/-- Mock body for paths containing /api/schedule. -/
def scheduleBody : String :=
  "\x7b\"success\": true, \"schedule\": \x7b\"timeSlots\": [], \"assignments\": []\x7d\x7d"

/-- Mock body for any other /api/ path. -/
def failureBody : String :=
  "\x7b\"success\": false, \"error\": \"Node.js backend not available\"\x7d"

/-- The mock-data selection inside handle_api_request: the chain of
if / elif substring tests, in source order. -/
def apiMockData (path : String) : String :=
  if strContains path "/api/csv/sessions" then sessionsBody
  else if strContains path "/api/hardware" then hardwareBody
  else if strContains path "/api/machines" then machinesBody
  else if strContains path "/api/schedule" then scheduleBody
  else failureBody

/-- handle_api_request: send_response(200), a JSON content-type header,
end_headers (which injects the no-cache headers), then the selected
mock body. -/
def handle_api_request (path : String) : Response :=
  { status := 200
    headers := end_headers [("Content-type", "application/json")]
    body := apiMockData path }

/-- The fixed JavaScript stub text sent for socket.io requests, exactly
the triple-quoted Python literal (leading newline, eight-space
indentation, trailing newline and eight spaces). -/
def mock_socketio : String :=
  "\n        window.io = function() \x7b\n            return \x7b\n                on: function(event, callback) \x7b\n                    console.log(\"Mock Socket.I\x4f: Listening for\", event);\n                    if (event === \x27connect\x27) \x7b\n                        setTimeout(() => callback(), 100);\n                    \x7d\n                \x7d,\n                emit: function(event, data) \x7b\n                    console.log(\"Mock Socket.I\x4f: Emitting\", event, data);\n                \x7d\n            \x7d;\n        \x7d;\n        "

/-- send_mock_socketio: send_response(200), a JavaScript content-type
header, end_headers, then the fixed stub body. -/
def send_mock_socketio : Response :=
  { status := 200
    headers := end_headers [("Content-type", "application/javascript")]
    body := mock_socketio }

/-- The delegated branch: whatever the base static server produces for
the path, with the no-cache headers appended by the overridden
end_headers it calls. -/
def staticServe (c : StaticContent) : Response :=
  { status := c.status, headers := end_headers c.headers, body := c.body }

/-- do_GET: rewrite the exact root path to /index.html, then dispatch
in order on the /api/ prefix, the /socket.io/ prefix, and finally the
delegated static server (abstracted as fs, a function from the
rewritten path to what the base class would produce). -/
def do_GET (fs : String → StaticContent) (path0 : String) : Response :=
  let path := if path0 = "/" then "/index.html" else path0
  if strStartsWith path "/api/" then handle_api_request path
  else if strStartsWith path "/socket.io/" then send_mock_socketio
  else staticServe (fs path)

/-- The Python exception kind this program can raise unhandled: the
ValueError coming out of the int() conversion of the port argument. -/
inductive PyErr where
  | valueError (msg : String)
deriving DecidableEq, Repr

/-- The six ASCII whitespace characters stripped by Python before
parsing an integer literal. -/
def isPySpace (c : Char) : Bool :=
  c = ' ' || c = '\t' || c = '\n' || c = '\x0b' || c = '\x0c' || c = '\r'

/-- ASCII decimal digit test. -/
def isAsciiDigit (c : Char) : Bool := '0' ≤ c && c ≤ '9'

/-- After an initial digit of an integer literal: the remaining
characters are digits, with single underscores allowed only between
two digits. -/
def digitTailOk : List Char → Bool
  | [] => true
  | '_' :: c :: rest => isAsciiDigit c && digitTailOk rest
  | ['_'] => false
  | c :: rest => isAsciiDigit c && digitTailOk rest

/-- A nonempty run of digits with single underscores between digits:
the digit part of a valid Python base-10 integer literal. -/
def digitsOk : List Char → Bool
  | [] => false
  | c :: rest => isAsciiDigit c && digitTailOk rest

/-- Numeric value of a digit run, ignoring grouping underscores. -/
def digitsVal (cs : List Char) : Nat :=
  (cs.filter (fun c => c ≠ '_')).foldl (fun n c => 10 * n + (c.toNat - 48)) 0

/-- Both-ends whitespace strip. -/
def stripPySpace (cs : List Char) : List Char :=
  ((cs.dropWhile isPySpace).reverse.dropWhile isPySpace).reverse

/-- The ValueError produced by int() on an invalid literal. -/
def pyIntErr (s : String) : Except PyErr Int :=
  Except.error (PyErr.valueError
    ("invalid literal for int() with base 10: \x27" ++ s ++ "\x27"))

/-- Model of the Python built-in int() applied to a string in base 10:
strip surrounding ASCII whitespace, accept an optional sign followed by
ASCII digits with grouping underscores, and raise ValueError on
anything else.  (Python additionally accepts some non-ASCII digits and
whitespace; the port argument of this program is ASCII.) -/
def pyInt (s : String) : Except PyErr Int :=
  match stripPySpace s.data with
  | '+' :: rest =>
      if digitsOk rest then Except.ok (digitsVal rest : Int) else pyIntErr s
  | '-' :: rest =>
      if digitsOk rest then Except.ok (-(digitsVal rest : Int)) else pyIntErr s
  | cs =>
      if digitsOk cs then Except.ok (digitsVal cs : Int) else pyIntErr s

/-- An OSError raised while creating the TCP server: its errno and the
string rendering that print would show for it. -/
structure OSErr where
  errno : Int
  msg : String
deriving DecidableEq, Repr

/-- What the operating system and the operator do once start_server
enters its try block: either the TCPServer constructor raises an
OSError (for example because the port is already bound), or the server
starts and serve_forever is eventually interrupted by the operator
with KeyboardInterrupt.  serve_forever never returns normally. -/
inductive ServeEvent where
  | bindError (e : OSErr)
  | interrupt
deriving DecidableEq, Repr

/-- Outcome of start_server: the lines printed to standard output in
order, and the exception escaping the function unhandled, if any. -/
structure StartResult where
  output : List String
  unhandled : Option PyErr
deriving DecidableEq, Repr

/-- The status lines printed after a successful bind, in print order.
publicAbs stands for the absolute path of the serving directory
(os.path.abspath applied to the public directory) and browserOk for
whether the best-effort webbrowser.open call succeeded; when it fails,
the bare except prints one extra line and continues. -/
def serverBanner (port : Int) (publicAbs : String) (browserOk : Bool) :
    List String :=
  ["🚀 Jenkins Test Scheduler (Frontend Only)",
   "📁 Serving files from: " ++ publicAbs,
   "🌐 Server running at: http://localhost:" ++ toString port,
   "⚠️  Note: Backend functionality requires Node.js",
   "📖 See README.md for full setup instructions",
   "\n🔗 Opening browser..."]
  ++ (if browserOk then [] else ["Could not open browser automatically"])
  ++ ["\n⏹️  Press Ctrl+C to stop the server"]

/-- start_server: create the TCP server, print the banner, serve until
the event occurs.  An OSError from binding is caught: errno 48 (the
code's address-already-in-use errno, per its own comment) gets the
port-in-use report with a remediation hint, any other errno gets the
raw message.  A KeyboardInterrupt during serve_forever is caught and
reported as a clean shutdown.  Neither except clause re-raises, so no
exception escapes the function. -/
def start_server (port : Int) (publicAbs : String) (browserOk : Bool)
    (ev : ServeEvent) : StartResult :=
  match ev with
  | ServeEvent.bindError e =>
      { output :=
          if e.errno = 48 then
            ["❌ Port " ++ toString port ++ " is already in use",
             "💡 Try a different port: python3 simple_server.py 3001"]
          else
            ["❌ Error starting server: " ++ e.msg]
        unhandled := none }
  | ServeEvent.interrupt =>
      { output := serverBanner port publicAbs browserOk ++ ["\n👋 Server stopped"]
        unhandled := none }

/-- The port computation in the main block:
int(sys.argv[1]) if len(sys.argv) > 1 else 3000.  The argument list
includes the program name at position 0, so a second element is the
first positional argument. -/
def parsePort : List String → Except PyErr Int
  | _ :: a :: _ => pyInt a
  | _ => Except.ok 3000

/-- Whole-process run: compute the port from argv, then call
start_server with it.  An unhandled ValueError from int() terminates
the interpreter with exit code 1 before any server activity and before
any of this program's output; otherwise the process exits 0 when
start_server returns, or 1 if an exception escapes it.  The result is
the exit code paired with the printed lines. -/
def runProcess (argv : List String) (publicAbs : String) (browserOk : Bool)
    (ev : ServeEvent) : Nat × List String :=
  match parsePort argv with
  | Except.error _ => (1, [])
  | Except.ok p =>
      let r := start_server p publicAbs browserOk ev
      ((match r.unhandled with | some _ => 1 | none => 0), r.output)

/-- A sample abstract static-server behaviour used to instantiate
theorems at concrete inputs: every path missing, a plain 404 page. -/
def fsMissing : String → StaticContent :=
  fun _ => { status := 404, headers := [("Content-type", "text/html")], body := "404" }

/-! Helper lemmas about the dispatch conditions. -/

/-- Character list of the /api/ route marker. -/
theorem apiData : "/api/".data = ['/', 'a', 'p', 'i', '/'] := rfl

/-- Character list of the /socket.io/ route marker. -/
theorem sockData : "/socket.io/".data = ['/', 's', 'o', 'c', 'k', 'e', 't', '.', 'i', 'o', '/'] := rfl

/-- Character list of the root path. -/
theorem rootData : "/".data = ['/'] := rfl

/-- A successful startswith test exposes the path as the tested
marker followed by a remainder. -/
theorem startsWith_data (s p : String) (h : strStartsWith s p = true) :
    ∃ t, s.data = p.data ++ t := by
  unfold strStartsWith at h
  rw [ List.isPrefixOf_iff_prefix] at h
  obtain ⟨t, ht⟩ := h
  exact ⟨t, ht.symm⟩

/-- A path under /socket.io/ is not under /api/. -/
theorem sock_api_disjoint (s : String)
    (h : strStartsWith s "/socket.io/" = true) :
    strStartsWith s "/api/" = false := by
  obtain ⟨t, ht⟩ := startsWith_data s "/socket.io/" h
  unfold strStartsWith
  rw [ht, sockData, apiData]
  rfl

/-- A path under /api/ is not the bare root. -/
theorem api_ne_root (s : String) (h : strStartsWith s "/api/" = true) :
    s ≠ "/" := by
  intro he
  obtain ⟨t, ht⟩ := startsWith_data s "/api/" h
  rw [he, rootData, apiData] at ht
  simp at ht

/-- A path under /socket.io/ is not the bare root. -/
theorem sock_ne_root (s : String) (h : strStartsWith s "/socket.io/" = true) :
    s ≠ "/" := by
  intro he
  obtain ⟨t, ht⟩ := startsWith_data s "/socket.io/" h
  rw [he, rootData, sockData] at ht
  simp at ht

/-- On a path under /api/, do_GET reduces to the API handler. -/
theorem do_GET_api (fs : String → StaticContent) (path : String)
    (h : strStartsWith path "/api/" = true) :
    do_GET fs path = handle_api_request path := by
  have hne : path ≠ "/" := api_ne_root path h
  simp [do_GET, hne, h]

/-- On a path under /socket.io/, do_GET reduces to the socket.io
stub. -/
theorem do_GET_sock (fs : String → StaticContent) (path : String)
    (h : strStartsWith path "/socket.io/" = true) :
    do_GET fs path = send_mock_socketio := by
  have hne : path ≠ "/" := sock_ne_root path h
  have hapi : strStartsWith path "/api/" = false := sock_api_disjoint path h
  simp [do_GET, hne, h, hapi]

/-- Every branch of do_GET builds its header block through the
overridden end_headers. -/
theorem response_headers_shape (fs : String → StaticContent) (path : String) :
    ∃ sent, (do_GET fs path).headers = end_headers sent := by
  unfold do_GET handle_api_request send_mock_socketio staticServe
  dsimp only
  repeat' split
  all_goals exact ⟨_, rfl⟩

/-- int() reports failures only through the fixed invalid-literal
ValueError naming the offending string. -/
theorem pyInt_error_msg (s : String) (e : PyErr)
    (h : pyInt s = Except.error e) :
    e = PyErr.valueError ("invalid literal for int() with base 10: \x27" ++ s ++ "\x27") := by
  unfold pyInt at h
  split at h <;> split at h <;> simp_all [pyIntErr]

/-! The spec-side dispatch table for the refinement claim about the
API branch. -/

/-- The four recognised sub-path markers paired with their bodies, in
the order the spec lists them (and the code tests them). -/
def apiDispatchTable : List (String × String) :=
  [("/api/csv/sessions", sessionsBody),
   ("/api/hardware", hardwareBody),
   ("/api/machines", machinesBody),
   ("/api/schedule", scheduleBody)]

/-- Spec-side definition, written to the words of the claim rather
than from the code: ordered first-match over a table of substring
markers, falling back to the failure body when none occurs. -/
def firstMatch : List (String × String) → String → String
  | [], _ => failureBody
  | (k, v) :: rest, p => if strContains p k then v else firstMatch rest p

/-- Claim C1 counterexample: a path that begins with /api/ and
contains /api/hardware but whose response body is not the hardware
body, because the /api/csv/sessions test comes first in the
dispatch chain. -/
theorem hardware_claim_counterexample :
    strContains "/api/csv/sessions/api/hardware" "/api/hardware" = true ∧
    strStartsWith "/api/csv/sessions/api/hardware" "/api/" = true ∧
    (do_GET fsMissing "/api/csv/sessions/api/hardware").body ≠ hardwareBody := by
  refine ⟨rfl, rfl, ?_⟩
  decide

/-- Claim C1 (amended): for every GET request whose path contains
/api/hardware, begins with /api/, and does not also contain the
earlier-tested marker /api/csv/sessions, the response is exactly the
hardware body with status 200 and JSON content-type, plus the no-cache
headers end_headers appends. -/
theorem hardware_paths_get_hardware_body (fs : String → StaticContent) (path : String)
    (hhw : strContains path "/api/hardware" = true)
    (hapi : strStartsWith path "/api/" = true)
    (hcsv : strContains path "/api/csv/sessions" = false) :
    do_GET fs path =
      { status := 200
        headers := end_headers [("Content-type", "application/json")]
        body := hardwareBody } := by
  rw [do_GET_api fs path hapi]
  simp [handle_api_request, apiMockData, hcsv, hhw]

/-- Claim C1 witness: the amended theorem applied at the literal path
/api/hardware. -/
theorem hardware_paths_witness :
    do_GET fsMissing "/api/hardware" =
      { status := 200
        headers := end_headers [("Content-type", "application/json")]
        body := hardwareBody } :=
  hardware_paths_get_hardware_body fsMissing "/api/hardware" rfl rfl rfl

/-- Claim C2: a GET request whose path begins with /api/ but contains
none of the four known markers gets exactly the fixed failure body,
status 200 (not an error status) and JSON content-type. -/
theorem unknown_api_paths_get_failure_body (fs : String → StaticContent) (path : String)
    (hapi : strStartsWith path "/api/" = true)
    (h1 : strContains path "/api/csv/sessions" = false)
    (h2 : strContains path "/api/hardware" = false)
    (h3 : strContains path "/api/machines" = false)
    (h4 : strContains path "/api/schedule" = false) :
    do_GET fs path =
      { status := 200
        headers := end_headers [("Content-type", "application/json")]
        body := failureBody } := by
  rw [do_GET_api fs path hapi]
  simp [handle_api_request, apiMockData, h1, h2, h3, h4]

/-- Claim C2 witness: the theorem applied at the literal path
/api/unknown-thing. -/
theorem unknown_api_paths_witness :
    do_GET fsMissing "/api/unknown-thing" =
      { status := 200
        headers := end_headers [("Content-type", "application/json")]
        body := failureBody } :=
  unknown_api_paths_get_failure_body fsMissing "/api/unknown-thing" rfl rfl rfl rfl rfl

/-- Claim C3: every response produced by the request handler, on every
dispatch branch (API mock, socket.io mock, or delegated static serving
including 404s), carries the headers Cache-Control no-cache, no-store,
must-revalidate, Pragma no-cache, and Expires 0. -/
theorem every_response_carries_no_cache_headers (fs : String → StaticContent) (path : String) :
    ("Cache-Control", "no-cache, no-store, must-revalidate") ∈ (do_GET fs path).headers ∧
    ("Pragma", "no-cache") ∈ (do_GET fs path).headers ∧
    ("Expires", "0") ∈ (do_GET fs path).headers := by
  obtain ⟨sent, hs⟩ := response_headers_shape fs path
  rw [hs]
  unfold end_headers noCacheHeaders
  refine ⟨?_, ?_, ?_⟩ <;> simp

/-- Claim C4: handling a GET for the exact root path produces the same
response (status, headers, body) as handling a GET for /index.html,
whatever the static filesystem holds; the rewrite happens before any
dispatch. -/
theorem root_is_equivalent_to_index_html (fs : String → StaticContent) :
    do_GET fs "/" = do_GET fs "/index.html" := rfl

set_option maxRecDepth 100000 in
/-- Claim C5: every GET whose path begins with /socket.io/ gets status
200, content-type application/javascript and the one fixed stub body
(which defines window.io with on and emit members), identical for
every such path. -/
theorem socketio_paths_get_fixed_stub (fs : String → StaticContent) (path : String)
    (h : strStartsWith path "/socket.io/" = true) :
    do_GET fs path =
      { status := 200
        headers := end_headers [("Content-type", "application/javascript")]
        body := mock_socketio } ∧
    strContains mock_socketio "window.io = function()" = true ∧
    strContains mock_socketio "on: function(event, callback)" = true ∧
    strContains mock_socketio "emit: function(event, data)" = true := by
  refine ⟨?_, rfl, rfl, rfl⟩
  rw [do_GET_sock fs path h]
  rfl

/-- Claim C5 witness: the theorem applied at the literal path
/socket.io/socket.io.js. -/
theorem socketio_paths_witness :
    do_GET fsMissing "/socket.io/socket.io.js" =
      { status := 200
        headers := end_headers [("Content-type", "application/javascript")]
        body := mock_socketio } :=
  (socketio_paths_get_fixed_stub fsMissing "/socket.io/socket.io.js" rfl).1

/-- Claim C9: on paths under /api/, the handler body is the ordered
first-match over the four markers in source order, so a path
containing several markers gets the body of the earliest one in the
sequence, and the body is always one of the five literal JSON
strings. -/
theorem api_dispatch_is_ordered_first_match (fs : String → StaticContent) (path : String)
    (hapi : strStartsWith path "/api/" = true) :
    (do_GET fs path).body = firstMatch apiDispatchTable path ∧
    (do_GET fs path).body ∈
      [sessionsBody, hardwareBody, machinesBody, scheduleBody, failureBody] := by
  rw [do_GET_api fs path hapi]
  refine ⟨rfl, ?_⟩
  by_cases h1 : strContains path "/api/csv/sessions" = true <;>
  by_cases h2 : strContains path "/api/hardware" = true <;>
  by_cases h3 : strContains path "/api/machines" = true <;>
  by_cases h4 : strContains path "/api/schedule" = true <;>
  simp [handle_api_request, apiMockData, h1, h2, h3, h4]

/-- Claim C9 witness: the theorem applied at a path containing two of
the markers; the earlier marker in the sequence wins. -/
theorem api_dispatch_witness :
    (do_GET fsMissing "/api/hardware/api/schedule").body =
      firstMatch apiDispatchTable "/api/hardware/api/schedule" ∧
    (do_GET fsMissing "/api/hardware/api/schedule").body ∈
      [sessionsBody, hardwareBody, machinesBody, scheduleBody, failureBody] :=
  api_dispatch_is_ordered_first_match fsMissing "/api/hardware/api/schedule" rfl

/-- Claim C6: when the bind attempt fails with the address-in-use
OSError (errno 48, the value the code itself labels address already in
use), start_server reports the conflict, suggests retrying with a
different port, and lets no exception escape, for every port value and
error message. -/
theorem port_in_use_is_reported (port : Int) (publicAbs : String)
    (browserOk : Bool) (msg : String) :
    (start_server port publicAbs browserOk
        (ServeEvent.bindError { errno := 48, msg := msg })).unhandled = none ∧
    ("❌ Port " ++ toString port ++ " is already in use") ∈
      (start_server port publicAbs browserOk
        (ServeEvent.bindError { errno := 48, msg := msg })).output ∧
    "💡 Try a different port: python3 simple_server.py 3001" ∈
      (start_server port publicAbs browserOk
        (ServeEvent.bindError { errno := 48, msg := msg })).output := by
  refine ⟨rfl, ?_, ?_⟩ <;> simp [start_server]

/-- Claim C7: with no command-line argument the computed port is 3000
and the process runs the server on port 3000; with one positional
argument that parses as an integer n, the computed port is n and the
process runs the server on port n. -/
theorem cli_port_selection :
    (∀ prog : String, parsePort [prog] = Except.ok 3000) ∧
    (∀ (prog a : String) (rest : List String) (n : Int), pyInt a = Except.ok n →
      parsePort (prog :: a :: rest) = Except.ok n) ∧
    (∀ (prog publicAbs : String) (browserOk : Bool) (ev : ServeEvent),
      runProcess [prog] publicAbs browserOk ev =
        (0, (start_server 3000 publicAbs browserOk ev).output)) ∧
    (∀ (prog a : String) (rest : List String) (n : Int) (publicAbs : String)
        (browserOk : Bool) (ev : ServeEvent), pyInt a = Except.ok n →
      runProcess (prog :: a :: rest) publicAbs browserOk ev =
        (0, (start_server n publicAbs browserOk ev).output)) := by
  refine ⟨fun prog => rfl, fun prog a rest n h => h, fun prog pa b ev => ?_,
    fun prog a rest n pa b ev h => ?_⟩
  · cases ev <;> rfl
  · have hp : parsePort (prog :: a :: rest) = Except.ok n := h
    unfold runProcess
    rw [hp]
    cases ev <;> rfl

/-- Claim C7 witness: the theorem applied with no argument and with
the literal argument 8080. -/
theorem cli_port_selection_witness :
    parsePort ["simple_server.py"] = Except.ok 3000 ∧
    runProcess ["simple_server.py", "8080"] "/srv/public" true ServeEvent.interrupt =
      (0, (start_server 8080 "/srv/public" true ServeEvent.interrupt).output) :=
  ⟨cli_port_selection.1 "simple_server.py",
   cli_port_selection.2.2.2 "simple_server.py" "8080" [] 8080 "/srv/public" true
     ServeEvent.interrupt rfl⟩

/-- Claim C8: when the port parses, an operator interrupt makes the
process print the shutdown message and exit with code 0; when the port
argument raises an unhandled ValueError at startup, the exit code is
not 0. -/
theorem interrupt_exits_clean_and_startup_errors_exit_nonzero :
    (∀ (argv : List String) (publicAbs : String) (browserOk : Bool) (p : Int),
      parsePort argv = Except.ok p →
      (runProcess argv publicAbs browserOk ServeEvent.interrupt).1 = 0 ∧
      "\n👋 Server stopped" ∈ (runProcess argv publicAbs browserOk ServeEvent.interrupt).2) ∧
    (∀ (argv : List String) (publicAbs : String) (browserOk : Bool)
        (ev : ServeEvent) (e : PyErr),
      parsePort argv = Except.error e →
      (runProcess argv publicAbs browserOk ev).1 ≠ 0) := by
  constructor
  · intro argv pa b p h
    unfold runProcess
    rw [h]
    exact ⟨rfl, by simp [start_server]⟩
  · intro argv pa b ev e h
    unfold runProcess
    rw [h]
    exact Nat.one_ne_zero

/-- Claim C8 witness: the theorem applied at a run with no argument
that is interrupted, and at a run whose argument is not numeric. -/
theorem exit_codes_witness :
    (runProcess ["simple_server.py"] "/srv/public" true ServeEvent.interrupt).1 = 0 ∧
    (runProcess ["simple_server.py", "many"] "/srv/public" true ServeEvent.interrupt).1 ≠ 0 :=
  ⟨(interrupt_exits_clean_and_startup_errors_exit_nonzero.1 ["simple_server.py"]
      "/srv/public" true 3000 rfl).1,
   interrupt_exits_clean_and_startup_errors_exit_nonzero.2 ["simple_server.py", "many"]
     "/srv/public" true ServeEvent.interrupt
     (PyErr.valueError "invalid literal for int() with base 10: \x27many\x27") rfl⟩

/-- Claim C10: when the single command-line argument does not parse as
an integer, the resulting exception is exactly the invalid-literal
ValueError from int(), it is not caught, and the process terminates
with exit code 1 having produced no output and started no server. -/
theorem invalid_port_argument_raises_value_error (prog a : String)
    (rest : List String) (e : PyErr) (h : pyInt a = Except.error e) :
    e = PyErr.valueError ("invalid literal for int() with base 10: \x27" ++ a ++ "\x27") ∧
    parsePort (prog :: a :: rest) = Except.error e ∧
    ∀ (publicAbs : String) (browserOk : Bool) (ev : ServeEvent),
      runProcess (prog :: a :: rest) publicAbs browserOk ev = (1, []) := by
  refine ⟨pyInt_error_msg a e h, h, ?_⟩
  intro pa b ev
  have hp : parsePort (prog :: a :: rest) = Except.error e := h
  unfold runProcess
  rw [hp]

/-- Claim C10 witness: the theorem applied at the literal argument
abc. -/
theorem invalid_port_argument_witness :
    runProcess ["simple_server.py", "abc"] "/srv/public" true ServeEvent.interrupt = (1, []) :=
  (invalid_port_argument_raises_value_error "simple_server.py" "abc" []
      (PyErr.valueError "invalid literal for int() with base 10: \x27abc\x27") rfl).2.2
    "/srv/public" true ServeEvent.interrupt

end SimpleServer
